import Mathlib

/-
Shallow embedding of the message-bus client core of `integrated-libraries`
(src/events.ts and src/encrypt.ts).

Modelling conventions:
- Payload values are carried as values of a type parameter `T`/`P`; the
  UTF-8 JSON serialization performed by `JSON.stringify`/`Buffer.from` and
  the inverse `JSON.parse` are external (JS builtins) and are modelled as
  an identity on the structured value, respectively a caller-supplied
  partial parse function `String → Option _` (`none` models a thrown
  `SyntaxError`).
- The amqplib channel is modelled by the list of protocol operations it
  emits (`ChannelOp`), plus, for the publisher channel, a write buffer
  with a high-water mark so that the boolean returned by the channel-level
  `publish` (buffer accepted / back-pressure) is observable.
- The rxjs `filter`-based pipeline stages are modelled per message: each
  stage maps a message to the optionally-kept message together with the
  list of side effects it performed (`PipeAction`), in execution order.
- Joi (`Joi.attempt` with a schema) is the external schema-validation
  collaborator; it is modelled as a function `T → Except E T` returning
  the coerced value or the validation error that `Joi.attempt` throws.
-/

namespace IntLibs

/-- Protocol operations emitted on an amqplib channel, as issued by the
source's `assertExchange`, `assertQueue`, `bindQueue`, `publish` and `ack`
calls. `P` is the type of published payload values. -/
inductive ChannelOp (P : Type) where
  | assertExchange (exchange exchangeType : String) (durable : Bool)
  | assertQueue (queue : String) (durable : Bool)
  | bindQueue (queue exchange routingKey : String)
  | publish (exchange routingKey : String) (payload : P) (priority : Option Nat)
  | ack (deliveryTag : Nat)
  deriving DecidableEq

/-- Broker-visible topology state: declared exchanges (name, type, durable),
queues (name, durable) and bindings (queue, exchange, routing key). -/
structure Topology where
  exchanges : List (String × String × Bool)
  queues : List (String × Bool)
  bindings : List (String × String × String)
  deriving DecidableEq

/-- AMQP assertion semantics: declaring an entity that already exists is a
no-op, otherwise it is added. -/
def insertOnce {α : Type} [DecidableEq α] (a : α) (l : List α) : List α :=
  if a ∈ l then l else l ++ [a]

/-- Effect of one channel operation on the broker-visible topology
(publishes and acks do not change topology). -/
def Topology.applyOp {P : Type} (t : Topology) : ChannelOp P → Topology
  | .assertExchange e ty d => { t with exchanges := insertOnce (e, ty, d) t.exchanges }
  | .assertQueue q d => { t with queues := insertOnce (q, d) t.queues }
  | .bindQueue q e rk => { t with bindings := insertOnce (q, e, rk) t.bindings }
  | .publish _ _ _ _ => t
  | .ack _ => t

/-- Effect of a sequence of channel operations on the topology. -/
def Topology.applyOps {P : Type} (t : Topology) (ops : List (ChannelOp P)) : Topology :=
  ops.foldl Topology.applyOp t

def Topology.hasExchange (t : Topology) (e : String) : Bool :=
  decide ((e, "topic", true) ∈ t.exchanges)

def Topology.hasQueue (t : Topology) (q : String) : Bool :=
  decide ((q, true) ∈ t.queues)

def Topology.hasBinding (t : Topology) (q e rk : String) : Bool :=
  decide ((q, e, rk) ∈ t.bindings)

/-- The shared publisher channel: its outgoing write buffer and the
high-water mark below which the channel-level send reports acceptance. -/
structure PublisherChannel (P : Type) where
  highWaterMark : Nat
  buffer : List (ChannelOp P)
  deriving DecidableEq

/-- Channel-level send (amqplib `channel.publish`): the frame is always
enqueued; the returned boolean reports whether the local write buffer
accepted the message without exceeding the high-water mark. -/
def PublisherChannel.send {P : Type} (ch : PublisherChannel P) (exchange routingKey : String)
    (payload : P) (priority : Option Nat) : PublisherChannel P × Bool :=
  let ch2 : PublisherChannel P :=
    { ch with buffer := ch.buffer ++ [.publish exchange routingKey payload priority] }
  (ch2, decide (ch2.buffer.length ≤ ch.highWaterMark))

/-- A raw broker delivery as seen by a consume callback: the routing fields
and the UTF-8 body text. -/
structure Delivery where
  exchange : String
  routingKey : String
  content : String
  deliveryTag : Nat
  deriving DecidableEq

/-- Outcome of one invocation of a consume delivery callback:
`skipped` models the `if (!message) return` path, `raised` models an
exception thrown inside the callback (unguarded `JSON.parse` failure),
`emitted m` models `message$.next(m)`. -/
inductive ConsumeCallbackResult (M : Type) where
  | skipped : ConsumeCallbackResult M
  | raised : ConsumeCallbackResult M
  | emitted (m : M) : ConsumeCallbackResult M
  deriving DecidableEq

/-- Whether the callback pushed an envelope to subscribers. -/
def ConsumeCallbackResult.emitsEnvelope {M : Type} : ConsumeCallbackResult M → Bool
  | .emitted _ => true
  | _ => false

/-- Side effects a pipeline stage can perform on a message, in execution
order: invoking the envelope's acknowledgment capability, invoking the
synchronous caller-supplied error handler (events.ts variant, which
receives the error and the message), or initiating the asynchronous
dead-letter publication (encrypt.ts variant). -/
inductive PipeAction (E M : Type) where
  | ackMessage : PipeAction E M
  | onError (error : E) (message : M) : PipeAction E M
  | throwError (error : E) : PipeAction E M
  deriving DecidableEq

def PipeAction.isAck {E M : Type} : PipeAction E M → Bool
  | .ackMessage => true
  | _ => false

def PipeAction.isErrorPath {E M : Type} : PipeAction E M → Bool
  | .onError _ _ => true
  | .throwError _ => true
  | _ => false

/-- Number of acknowledgment invocations in a list of pipeline actions. -/
def ackCount {E M : Type} (acts : List (PipeAction E M)) : Nat :=
  (acts.filter PipeAction.isAck).length

/-- The acknowledgment capability built by `consume`:
`const ackMessage = () => listener.ack(message)`. Each invocation emits an
ack for the closed-over delivery on the listener channel's operation log;
the closure contains no guard against repeated invocation. -/
def ackMessage {P : Type} (deliveryTag : Nat) (listenerOps : List (ChannelOp P)) :
    List (ChannelOp P) :=
  listenerOps ++ [.ack deliveryTag]

namespace Events

/-- The SubscriberMessage envelope of src/events.ts: routing provenance,
the originating queue, the raw parsed payload, the typed payload (initially
the same value, mutable through validation), plus the delivery tag that the
acknowledgment closure is bound to. -/
structure SubscriberMessage (T : Type) where
  exchange : String
  routingKey : String
  queue : String
  sourceData : T
  data : T
  deliveryTag : Nat
  deriving DecidableEq

/-- events.ts `assertExchange` (lines 24-26): declares the exchange as
topic-routed and durable on the publisher channel. -/
def assertExchange {P : Type} (exchange : String) : List (ChannelOp P) :=
  [.assertExchange exchange "topic" true]

/-- events.ts `assertQueue` (lines 28-32): re-asserts the exchange
(topic, durable), asserts the durable queue, then binds queue to exchange
via the routing key. -/
def assertQueue {P : Type} (exchange routingKey queue : String) : List (ChannelOp P) :=
  [.assertExchange exchange "topic" true,
   .assertQueue queue true,
   .bindQueue queue exchange routingKey]

/-- events.ts `publish` (lines 36-40): serializes the payload (identity on
the modelled structured value), submits it on the shared publisher channel
and returns the channel-level send's boolean result. -/
def publish {P : Type} (ch : PublisherChannel P) (exchange routingKey : String)
    (data : P) (priority : Option Nat) : PublisherChannel P × Bool :=
  ch.send exchange routingKey data priority

/-- events.ts `consume` delivery callback (lines 48-64): a null message
returns without emitting; otherwise the body is parsed by `JSON.parse`
(modelled by `parse`; `none` means the parse threw, aborting the callback
with an exception) and an envelope whose raw and typed payload are both
the parsed body is pushed to subscribers. -/
def consumeOnDelivery {T : Type} (parse : String → Option T) (queue : String)
    (message : Option Delivery) : ConsumeCallbackResult (SubscriberMessage T) :=
  match message with
  | none => .skipped
  | some msg =>
    match parse msg.content with
    | none => .raised
    | some sourceData =>
      .emitted { exchange := msg.exchange, routingKey := msg.routingKey, queue := queue,
                 sourceData := sourceData, data := sourceData, deliveryTag := msg.deliveryTag }

/-- events.ts `filterOrAck` (lines 73-77): rxjs filter stage; a message
whose typed payload satisfies the predicate is kept unchanged with no side
effect, otherwise its acknowledgment is invoked and it is dropped. -/
def filterOrAck {T E : Type} (filterByMessageData : T → Bool) (m : SubscriberMessage T) :
    Option (SubscriberMessage T) × List (PipeAction E (SubscriberMessage T)) :=
  if filterByMessageData m.data then (some m, []) else (none, [.ackMessage])

/-- events.ts `attemptMessageData` (lines 81-92): rxjs filter stage around
`Joi.attempt` (modelled by `attempt`). On success the coerced value is
installed as the typed payload and the message is kept; on failure the
message is acknowledged, the caller-supplied error handler is invoked with
the error and the message, and the message is dropped. -/
def attemptMessageData {T E : Type} (attempt : T → Except E T) (m : SubscriberMessage T) :
    Option (SubscriberMessage T) × List (PipeAction E (SubscriberMessage T)) :=
  match attempt m.data with
  | .ok coerced => (some { m with data := coerced }, [])
  | .error e => (none, [.ackMessage, .onError e m])

end Events

namespace Encrypt

/-- The ConsumeMessage envelope of src/encrypt.ts: like events.ts's
SubscriberMessage but without the queue field; its `throwError` capability
closes over the recorded exchange, routing key and raw payload. -/
structure ConsumeMessage (T : Type) where
  exchange : String
  routingKey : String
  sourceData : T
  data : T
  deliveryTag : Nat
  deriving DecidableEq

/-- The errData record built by encrypt.ts `throwError` (lines 123-129). -/
structure ErrData (T : Type) where
  sourceExchange : String
  sourceRoutingKey : String
  sourceData : T
  errType : String
  errMessage : String
  deriving DecidableEq

/-- A JavaScript Error value as `throwError` observes it: its constructor
name (`err.constructor.name`) and its message. -/
structure JsError where
  ctorName : String
  message : String
  deriving DecidableEq

/-- The ErrMessage envelope emitted by encrypt.ts `consumeErrors`. -/
structure ErrMessage (T : Type) where
  exchange : String
  routingKey : String
  sourceData : T
  data : T
  errMessage : String
  errType : String
  sourceExchange : String
  sourceRoutingKey : String
  deliveryTag : Nat
  deriving DecidableEq

/-- encrypt.ts `assertExchange` (lines 90-92). -/
def assertExchange {P : Type} (exchange : String) : List (ChannelOp P) :=
  [.assertExchange exchange "topic" true]

/-- encrypt.ts `assertQueue` (lines 94-98): exchange first, then queue,
then binding, all durable. -/
def assertQueue {P : Type} (exchange routingKey queue : String) : List (ChannelOp P) :=
  [.assertExchange exchange "topic" true,
   .assertQueue queue true,
   .bindQueue queue exchange routingKey]

/-- encrypt.ts `publish` (lines 102-106): async function that submits the
serialized payload on the publisher channel and returns without a value
(Promise of void) — the channel-level boolean is discarded. -/
def publish {P : Type} (ch : PublisherChannel P) (exchange routingKey : String)
    (data : P) (priority : Option Nat) : PublisherChannel P × Unit :=
  ((ch.send exchange routingKey data priority).1, ())

/-- encrypt.ts `throwError` (lines 122-132; the source name is a reserved
Lean token, hence the `Ops` suffix): builds the errData record from the
closed-over delivery provenance and the thrown error, asserts the reserved
error topology (exchange "error", queue "errors", routing key the error's
constructor name) and publishes the record to it with no priority. -/
def throwErrorOps {T : Type} (exchange routingKey : String) (sourceData : T) (err : JsError) :
    List (ChannelOp (ErrData T)) :=
  let errData : ErrData T :=
    { sourceExchange := exchange, sourceRoutingKey := routingKey, sourceData := sourceData,
      errType := err.ctorName, errMessage := err.message }
  assertQueue "error" errData.errType "errors" ++
    [.publish "error" errData.errType errData none]

/-- encrypt.ts `consume` delivery callback (lines 114-142): same shape as
events.ts, additionally endowing the envelope with the `throwError`
capability, which closes over the delivery's exchange, routing key and
parsed body (modelled by `throwErrorOps` applied to those fields). -/
def consumeOnDelivery {T : Type} (parse : String → Option T)
    (message : Option Delivery) : ConsumeCallbackResult (ConsumeMessage T) :=
  match message with
  | none => .skipped
  | some msg =>
    match parse msg.content with
    | none => .raised
    | some sourceData =>
      .emitted { exchange := msg.exchange, routingKey := msg.routingKey,
                 sourceData := sourceData, data := sourceData, deliveryTag := msg.deliveryTag }

/-- encrypt.ts `consumeErrors` delivery callback (lines 154-164): parses
the body as an Error record, overwrites exchange/routingKey with the
delivery's own fields, installs the recorded raw payload as the typed
payload, and emits the ErrMessage. -/
def consumeErrorsOnDelivery {T : Type} (parse : String → Option (ErrData T))
    (message : Option Delivery) : ConsumeCallbackResult (ErrMessage T) :=
  match message with
  | none => .skipped
  | some msg =>
    match parse msg.content with
    | none => .raised
    | some errRec =>
      .emitted { exchange := msg.exchange, routingKey := msg.routingKey,
                 sourceData := errRec.sourceData, data := errRec.sourceData,
                 errMessage := errRec.errMessage, errType := errRec.errType,
                 sourceExchange := errRec.sourceExchange,
                 sourceRoutingKey := errRec.sourceRoutingKey,
                 deliveryTag := msg.deliveryTag }

/-- encrypt.ts `replyData` (lines 161-162): republishes the record's typed
payload to the recorded source exchange and source routing key, with the
optionally supplied new priority. -/
def ErrMessage.replyData {T : Type} (em : ErrMessage T) (priority : Option Nat) :
    ChannelOp T :=
  .publish em.sourceExchange em.sourceRoutingKey em.data priority

/-- encrypt.ts `assertData` (lines 173-184): rxjs filter stage around
`Joi.attempt`. On success the coerced value is installed and the message
kept; on failure the message is acknowledged, then its `throwError`
capability is invoked (not awaited), and the message is dropped. -/
def assertData {T E : Type} (attempt : T → Except E T) (m : ConsumeMessage T) :
    Option (ConsumeMessage T) × List (PipeAction E (ConsumeMessage T)) :=
  match attempt m.data with
  | .ok coerced => (some { m with data := coerced }, [])
  | .error e => (none, [.ackMessage, PipeAction.throwError e])

/-- encrypt.ts `filterOrAck` (lines 186-190): same stage as events.ts's,
over ConsumeMessage. -/
def filterOrAck {T E : Type} (filterByMessageData : T → Bool) (m : ConsumeMessage T) :
    Option (ConsumeMessage T) × List (PipeAction E (ConsumeMessage T)) :=
  if filterByMessageData m.data then (some m, []) else (none, [.ackMessage])

/-- The validation pipeline as the application composes it on a consumed
envelope: the predicate filter, then the schema filter. An envelope dropped
by the first stage never reaches the second. -/
def pipelineRun {T E : Type} (pred : T → Bool) (attempt : T → Except E T)
    (m : ConsumeMessage T) :
    Option (ConsumeMessage T) × List (PipeAction E (ConsumeMessage T)) :=
  match filterOrAck pred m with
  | (none, acts) => (none, acts)
  | (some m1, acts) =>
    match assertData attempt m1 with
    | (r, acts2) => (r, acts ++ acts2)

/-- Expansion of a pipeline action list into broker operations for one
envelope: an acknowledgment goes synchronously to the listener channel;
the dead-letter publication initiated by `throwError` is asynchronous and
unawaited — when it fails (`pubSucceeds = false`) its operations never
reach the broker, but the actions already performed stand. -/
def runActions {T : Type} (m : ConsumeMessage T) (pubSucceeds : Bool) :
    List (PipeAction JsError (ConsumeMessage T)) → List (ChannelOp (ErrData T))
  | [] => []
  | .ackMessage :: rest => .ack m.deliveryTag :: runActions m pubSucceeds rest
  | PipeAction.throwError e :: rest =>
      (if pubSucceeds then throwErrorOps m.exchange m.routingKey m.sourceData e else []) ++
        runActions m pubSucceeds rest
  | .onError _ _ :: rest => runActions m pubSucceeds rest

end Encrypt

/-- The exchange a channel operation publishes to, if it is a publish. -/
def ChannelOp.targetExchange {P : Type} : ChannelOp P → Option String
  | .publish e _ _ _ => some e
  | _ => none

/-- Sample envelope (events.ts variant) whose payload satisfies the sample
predicate and schema. -/
def sampleSubscriberMessage : Events.SubscriberMessage Nat :=
  { exchange := "orders", routingKey := "created", queue := "orders.created",
    sourceData := 1, data := 1, deliveryTag := 7 }

/-- Sample envelope (encrypt.ts variant) with a valid payload. -/
def sampleConsumeMessage : Encrypt.ConsumeMessage Nat :=
  { exchange := "orders", routingKey := "created",
    sourceData := 1, data := 1, deliveryTag := 7 }

/-- Sample envelope (events.ts variant) with an invalid payload (0). -/
def failingSubscriberMessage : Events.SubscriberMessage Nat :=
  { exchange := "orders", routingKey := "created", queue := "orders.created",
    sourceData := 0, data := 0, deliveryTag := 3 }

/-- Sample envelope (encrypt.ts variant) with an invalid payload (0). -/
def failingConsumeMessage : Encrypt.ConsumeMessage Nat :=
  { exchange := "orders", routingKey := "created",
    sourceData := 0, data := 0, deliveryTag := 3 }

/-- A delivery whose body is not valid JSON. -/
def sampleBadDelivery : Delivery :=
  { exchange := "orders", routingKey := "created", content := "not json", deliveryTag := 3 }

/-- A delivery arriving on the error queue from the "error" exchange. -/
def sampleErrDelivery : Delivery :=
  { exchange := "error", routingKey := "ValidationError", content := "body", deliveryTag := 9 }

/-- A recorded Error record with provenance pointing at the original
orders/created destination. -/
def sampleErrData : Encrypt.ErrData Nat :=
  { sourceExchange := "orders", sourceRoutingKey := "created", sourceData := 1,
    errType := "ValidationError", errMessage := "id must be a number" }

/-- Sample schema-validation function: fails exactly on payload 0. -/
def sampleAttempt : Nat → Except String Nat :=
  fun n => if n = 0 then Except.error "bad" else Except.ok n

/-- A sample JavaScript error value as thrown by the validation facility. -/
def sampleJsError : Encrypt.JsError :=
  { ctorName := "ValidationError", message := "id must be a number" }

/-- Sample schema-validation function throwing `sampleJsError` on 0. -/
def sampleJsAttempt : Nat → Except Encrypt.JsError Nat :=
  fun n => if n = 0 then Except.error sampleJsError else Except.ok n

/-- Sample publisher channel whose write buffer is already at its
high-water mark, so the next channel-level send reports rejection. -/
def fullChannel : PublisherChannel Nat :=
  { highWaterMark := 0, buffer := [] }

/-- Sample publisher channel with room in its write buffer. -/
def roomyChannel : PublisherChannel Nat :=
  { highWaterMark := 10, buffer := [] }

theorem mem_insertOnce {α : Type} [DecidableEq α] (a : α) (l : List α) :
    a ∈ insertOnce a l := by
  unfold insertOnce
  by_cases h : a ∈ l <;> simp [h]

theorem insertOnce_idem {α : Type} [DecidableEq α] (a : α) (l : List α) :
    insertOnce a (insertOnce a l) = insertOnce a l := by
  unfold insertOnce
  by_cases h : a ∈ l <;> simp [h]

/-- C4: the predicate filter passes an envelope through unchanged with no
side effect when the caller-supplied predicate holds on its typed payload;
when the predicate fails, the filter itself invokes the envelope's
acknowledgment exactly once, drops the envelope from the sequence, and
performs no error-path action — in both the events.ts and encrypt.ts
variants. -/
theorem C4_predicate_filter {T E : Type} (pred : T → Bool)
    (m : Events.SubscriberMessage T) (m2 : Encrypt.ConsumeMessage T) :
    (pred m.data = true → Events.filterOrAck (E := E) pred m = (some m, [])) ∧
    (pred m.data = false →
      (Events.filterOrAck (E := E) pred m).1 = none ∧
      ackCount (Events.filterOrAck (E := E) pred m).2 = 1 ∧
      (Events.filterOrAck (E := E) pred m).2.filter PipeAction.isErrorPath = []) ∧
    (pred m2.data = true → Encrypt.filterOrAck (E := E) pred m2 = (some m2, [])) ∧
    (pred m2.data = false →
      (Encrypt.filterOrAck (E := E) pred m2).1 = none ∧
      ackCount (Encrypt.filterOrAck (E := E) pred m2).2 = 1 ∧
      (Encrypt.filterOrAck (E := E) pred m2).2.filter PipeAction.isErrorPath = []) := by
  refine ⟨fun h => ?_, fun h => ?_, fun h => ?_, fun h => ?_⟩ <;>
    simp [Events.filterOrAck, Encrypt.filterOrAck, h, ackCount,
      PipeAction.isAck, PipeAction.isErrorPath]

/-- C4 witness: at the concrete predicate `data equals 1`, the envelope
with payload 1 passes through unchanged with no side effect, and the
envelope with payload 0 is dropped. -/
theorem C4_witness :
    Events.filterOrAck (E := String) (fun n => n == 1) sampleSubscriberMessage =
      (some sampleSubscriberMessage, []) ∧
    (Encrypt.filterOrAck (E := String) (fun n => n == 1) failingConsumeMessage).1 = none := by
  exact ⟨(C4_predicate_filter (fun n => n == 1) sampleSubscriberMessage
      failingConsumeMessage).1 (by decide),
    ((C4_predicate_filter (fun n => n == 1) sampleSubscriberMessage
      failingConsumeMessage).2.2.2 (by decide)).1⟩

/-- C5 counterexample: at the concrete delivery whose body "not json"
fails to parse, the consume delivery callback raises (the unguarded
JSON.parse throws inside the subscription's delivery handler) and pushes
no envelope to subscribers — the delivery is not passed through to the
Validation Pipeline, contrary to the claim. -/
theorem C5_counterexample :
    Events.consumeOnDelivery (T := Nat) (fun _ => none) "orders.created"
        (some sampleBadDelivery) = ConsumeCallbackResult.raised ∧
    (Events.consumeOnDelivery (T := Nat) (fun _ => none) "orders.created"
        (some sampleBadDelivery)).emitsEnvelope = false := by
  exact ⟨rfl, rfl⟩

/-- C5 (amended): a delivery whose body fails to parse as JSON is not
silently dropped-and-acknowledged, but neither is it passed through to
subscribers: the parse failure raises inside the delivery callback, which
emits no envelope (the delivery stays unacknowledged at this layer) — in
both the basic and the dead-letter variant. -/
theorem C5_parse_failure_raises {T : Type} (parse : String → Option T)
    (queue : String) (msg : Delivery) (h : parse msg.content = none) :
    Events.consumeOnDelivery parse queue (some msg) = ConsumeCallbackResult.raised ∧
    (Events.consumeOnDelivery parse queue (some msg)).emitsEnvelope = false ∧
    Encrypt.consumeOnDelivery parse (some msg) = ConsumeCallbackResult.raised ∧
    (Encrypt.consumeOnDelivery parse (some msg)).emitsEnvelope = false := by
  simp [Events.consumeOnDelivery, Encrypt.consumeOnDelivery, h,
    ConsumeCallbackResult.emitsEnvelope]

/-- C5 witness: the amended behaviour evaluated at the concrete
unparseable delivery. -/
theorem C5_witness :
    Events.consumeOnDelivery (T := Nat) (fun _ => none) "orders.created"
        (some sampleBadDelivery) = ConsumeCallbackResult.raised ∧
    (Events.consumeOnDelivery (T := Nat) (fun _ => none) "orders.created"
        (some sampleBadDelivery)).emitsEnvelope = false ∧
    Encrypt.consumeOnDelivery (T := Nat) (fun _ => none)
        (some sampleBadDelivery) = ConsumeCallbackResult.raised ∧
    (Encrypt.consumeOnDelivery (T := Nat) (fun _ => none)
        (some sampleBadDelivery)).emitsEnvelope = false :=
  C5_parse_failure_raises (fun _ => none) "orders.created" sampleBadDelivery rfl

/-- C6: for every validation failure routed through the asynchronous
dead-letter path, throwError emits exactly: the durable topic assertion of
the reserved exchange "error", the durable assertion of the reserved queue
"errors", the binding of "errors" to "error" via the error-type tag, and
then the publication, to exchange "error" with the error-type tag as
routing key and no priority, of an Error record carrying the error's type
tag, its message, and the failing message's original exchange and routing
key; the topology assertion precedes the publication on every invocation,
in particular the first. -/
theorem C6_dead_letter_topology {T : Type} (exchange routingKey : String)
    (sourceData : T) (err : Encrypt.JsError) :
    Encrypt.throwErrorOps exchange routingKey sourceData err =
      [ChannelOp.assertExchange "error" "topic" true,
       ChannelOp.assertQueue "errors" true,
       ChannelOp.bindQueue "errors" "error" err.ctorName,
       ChannelOp.publish "error" err.ctorName
         { sourceExchange := exchange, sourceRoutingKey := routingKey,
           sourceData := sourceData, errType := err.ctorName,
           errMessage := err.message } none] := by
  rfl

/-- C2: in both schema-filter variants, an envelope whose typed payload
fails validation is acknowledged exactly once by the filter, its failure
is handed to the error path (the synchronous caller-supplied handler,
invoked with the error and the envelope, in attemptMessageData; the
envelope's throwError capability in assertData), and the envelope is
dropped from the output sequence — so a schema-violating payload never
reaches the passed-through terminal state. -/
theorem C2_schema_failure_ack_error_drop {T E : Type}
    (attemptA attemptB : T → Except E T)
    (m : Events.SubscriberMessage T) (m2 : Encrypt.ConsumeMessage T) (e e2 : E)
    (hA : attemptA m.data = Except.error e)
    (hB : attemptB m2.data = Except.error e2) :
    (Events.attemptMessageData attemptA m).1 = none ∧
    ackCount (Events.attemptMessageData attemptA m).2 = 1 ∧
    PipeAction.onError e m ∈ (Events.attemptMessageData attemptA m).2 ∧
    (Encrypt.assertData attemptB m2).1 = none ∧
    ackCount (Encrypt.assertData attemptB m2).2 = 1 ∧
    PipeAction.throwError e2 ∈ (Encrypt.assertData attemptB m2).2 := by
  simp [Events.attemptMessageData, Encrypt.assertData, hA, hB, ackCount, PipeAction.isAck]

/-- C2 witness: the schema-failure behaviour evaluated at the concrete
validation function failing on payload 0 and the envelopes carrying 0. -/
theorem C2_witness :
    (Events.attemptMessageData sampleAttempt failingSubscriberMessage).1 = none ∧
    ackCount (Events.attemptMessageData sampleAttempt failingSubscriberMessage).2 = 1 ∧
    PipeAction.onError "bad" failingSubscriberMessage ∈
      (Events.attemptMessageData sampleAttempt failingSubscriberMessage).2 ∧
    (Encrypt.assertData sampleAttempt failingConsumeMessage).1 = none ∧
    ackCount (Encrypt.assertData sampleAttempt failingConsumeMessage).2 = 1 ∧
    PipeAction.throwError "bad" ∈
      (Encrypt.assertData sampleAttempt failingConsumeMessage).2 :=
  C2_schema_failure_ack_error_drop sampleAttempt sampleAttempt
    failingSubscriberMessage failingConsumeMessage "bad" "bad" rfl rfl

/-- C3: every Error record emitted by consumeErrors carries a replay
action that republishes the recorded payload to exactly the original
source exchange and source routing key captured at failure time (taken
from the parsed Error record, not from the error-queue delivery's own
fields), with the optionally supplied new priority attached; in
particular, when the recorded original exchange is not "error", the replay
publication does not target the error exchange. -/
theorem C3_replay_provenance {T : Type} (parse : String → Option (Encrypt.ErrData T))
    (msg : Delivery) (errRec : Encrypt.ErrData T) (p : Option Nat)
    (h : parse msg.content = some errRec) :
    ∃ em : Encrypt.ErrMessage T,
      Encrypt.consumeErrorsOnDelivery parse (some msg) =
        ConsumeCallbackResult.emitted em ∧
      em.replyData p = ChannelOp.publish errRec.sourceExchange
        errRec.sourceRoutingKey errRec.sourceData p ∧
      (em.replyData p).targetExchange = some errRec.sourceExchange ∧
      (errRec.sourceExchange ≠ "error" →
        (em.replyData p).targetExchange ≠ some "error") := by
  refine ⟨{ exchange := msg.exchange, routingKey := msg.routingKey,
            sourceData := errRec.sourceData, data := errRec.sourceData,
            errMessage := errRec.errMessage, errType := errRec.errType,
            sourceExchange := errRec.sourceExchange,
            sourceRoutingKey := errRec.sourceRoutingKey,
            deliveryTag := msg.deliveryTag }, ?_, ?_, ?_, ?_⟩
  · simp [Encrypt.consumeErrorsOnDelivery, h]
  · simp [Encrypt.ErrMessage.replyData]
  · simp [Encrypt.ErrMessage.replyData, ChannelOp.targetExchange]
  · intro hne
    simp [Encrypt.ErrMessage.replyData, ChannelOp.targetExchange, hne]

/-- C3 witness: the replay-provenance property evaluated at the concrete
error delivery whose body parses to the recorded orders/created
provenance, with a new priority of 5. -/
theorem C3_witness :
    ∃ em : Encrypt.ErrMessage Nat,
      Encrypt.consumeErrorsOnDelivery (fun _ => some sampleErrData)
        (some sampleErrDelivery) = ConsumeCallbackResult.emitted em ∧
      em.replyData (some 5) = ChannelOp.publish sampleErrData.sourceExchange
        sampleErrData.sourceRoutingKey sampleErrData.sourceData (some 5) ∧
      (em.replyData (some 5)).targetExchange = some sampleErrData.sourceExchange ∧
      (sampleErrData.sourceExchange ≠ "error" →
        (em.replyData (some 5)).targetExchange ≠ some "error") :=
  C3_replay_provenance (fun _ => some sampleErrData) sampleErrDelivery
    sampleErrData (some 5) rfl

/-- C7 counterexample: the dead-letter variant's publish does not report
buffer acceptance: on a channel whose write buffer rejects the message
(the channel-level send returns false) and on one that accepts it (send
returns true), encrypt.ts's publish returns the same unit value, so its
caller cannot tell whether the send buffer accepted the message. -/
theorem C7_counterexample :
    (fullChannel.send "orders" "created" 1 none).2 = false ∧
    (roomyChannel.send "orders" "created" 1 none).2 = true ∧
    (Encrypt.publish fullChannel "orders" "created" 1 none).2 =
      (Encrypt.publish roomyChannel "orders" "created" 1 none).2 := by
  exact ⟨by decide, by decide, rfl⟩

/-- C7 (amended): the basic variant's publish submits the message on the
publisher channel and returns exactly the channel-level send's boolean
(true precisely when the write buffer stays within its high-water mark
after enqueuing the message); the dead-letter variant performs the same
channel-level send but discards the boolean and returns no value. -/
theorem C7_publish_reporting {P : Type} (ch : PublisherChannel P)
    (exchange routingKey : String) (d : P) (p : Option Nat) :
    Events.publish ch exchange routingKey d p = ch.send exchange routingKey d p ∧
    ((Events.publish ch exchange routingKey d p).2 = true ↔
      ch.buffer.length + 1 ≤ ch.highWaterMark) ∧
    (Events.publish ch exchange routingKey d p).1.buffer =
      ch.buffer ++ [ChannelOp.publish exchange routingKey d p] ∧
    (Encrypt.publish ch exchange routingKey d p).1 =
      (ch.send exchange routingKey d p).1 ∧
    (Encrypt.publish ch exchange routingKey d p).2 = () := by
  refine ⟨rfl, ?_, ?_, rfl, rfl⟩
  · simp [Events.publish, PublisherChannel.send]
  · simp [Events.publish, PublisherChannel.send]

/-- C1 counterexample: the acknowledgment capability built by consume has
no double-invocation guard: invoking the same envelope's ackMessage a
second time emits a second channel-level ack for the same delivery tag
(the ack operation fires twice on the listener channel), instead of the
second invocation being rejected. -/
theorem C1_counterexample :
    ackMessage (P := Nat) 7 (ackMessage (P := Nat) 7 []) =
      [ChannelOp.ack 7, ChannelOp.ack 7] ∧
    (ackMessage (P := Nat) 7 (ackMessage (P := Nat) 7 [])).count (ChannelOp.ack 7) = 2 := by
  exact ⟨rfl, rfl⟩

/-- C1 (amended): across all pipeline paths (predicate-filtered and
dropped, schema-failed and forwarded to the error path, or validated and
passed through) the pipeline invokes a given envelope's acknowledgment at
most once — a dropped envelope leaves the sequence, so no later stage sees
it, and a passed-through envelope is not acknowledged by the pipeline at
all; the acknowledgment capability itself, however, carries no guard:
every further invocation emits a further channel-level ack. -/
theorem C1_pipeline_ack_at_most_once {T E : Type} (pred : T → Bool)
    (attempt : T → Except E T) (m : Encrypt.ConsumeMessage T) :
    ackCount (Encrypt.pipelineRun pred attempt m).2 ≤ 1 ∧
    (∀ m2, (Encrypt.pipelineRun pred attempt m).1 = some m2 →
      ackCount (Encrypt.pipelineRun pred attempt m).2 = 0) ∧
    (∀ (tag : Nat) (ops : List (ChannelOp (Encrypt.ErrData T))),
      ackMessage tag (ackMessage tag ops) =
        ops ++ [ChannelOp.ack tag, ChannelOp.ack tag]) := by
  refine ⟨?_, ?_, ?_⟩
  · unfold Encrypt.pipelineRun Encrypt.filterOrAck Encrypt.assertData
    by_cases h : pred m.data
    · cases hA : attempt m.data <;> simp [h, hA, ackCount, PipeAction.isAck]
    · simp [h, ackCount, PipeAction.isAck]
  · intro m2 hm2
    unfold Encrypt.pipelineRun Encrypt.filterOrAck Encrypt.assertData at hm2 ⊢
    by_cases h : pred m.data
    · cases hA : attempt m.data <;>
        simp [h, hA, ackCount, PipeAction.isAck] at hm2 ⊢
    · simp [h] at hm2
  · intro tag ops
    simp [ackMessage]

/-- C1 witness: on the concrete valid envelope the pipeline passes it
through with zero acknowledgment invocations. -/
theorem C1_witness :
    ackCount (Encrypt.pipelineRun (fun n => n == 1) sampleAttempt
      sampleConsumeMessage).2 ≤ 1 ∧
    ackCount (Encrypt.pipelineRun (fun n => n == 1) sampleAttempt
      sampleConsumeMessage).2 = 0 :=
  ⟨(C1_pipeline_ack_at_most_once (fun n => n == 1) sampleAttempt
      sampleConsumeMessage).1,
   (C1_pipeline_ack_at_most_once (fun n => n == 1) sampleAttempt
      sampleConsumeMessage).2.1 sampleConsumeMessage rfl⟩

/-- C8: assertQueue in both variants performs, in order, the same durable
topic assertion of the exchange that assertExchange performs, then the
durable queue assertion, then the binding of the queue to the exchange via
the routing key; applying it from any broker topology state therefore
leaves the exchange, the queue and the binding all present, so a caller
needs no prior assertExchange to obtain complete topology. -/
theorem C8_assertQueue_complete {P : Type} (exchange routingKey queue : String)
    (t : Topology) :
    Events.assertQueue (P := P) exchange routingKey queue =
      Events.assertExchange exchange ++
        [ChannelOp.assertQueue queue true, ChannelOp.bindQueue queue exchange routingKey] ∧
    Encrypt.assertQueue (P := P) exchange routingKey queue =
      Encrypt.assertExchange exchange ++
        [ChannelOp.assertQueue queue true, ChannelOp.bindQueue queue exchange routingKey] ∧
    (t.applyOps (Events.assertQueue (P := P) exchange routingKey queue)).hasExchange
      exchange = true ∧
    (t.applyOps (Events.assertQueue (P := P) exchange routingKey queue)).hasQueue
      queue = true ∧
    (t.applyOps (Events.assertQueue (P := P) exchange routingKey queue)).hasBinding
      queue exchange routingKey = true := by
  refine ⟨rfl, rfl, ?_, ?_, ?_⟩ <;>
    simp [Topology.applyOps, Events.assertQueue, Topology.applyOp, List.foldl,
      Topology.hasExchange, Topology.hasQueue, Topology.hasBinding, mem_insertOnce]

/-- C9: topology assertion is idempotent: performing the same
assertExchange or assertQueue assertion twice in succession produces the
same broker-visible topology (exchanges, queues and bindings) as
performing it once, and the two variants issue identical assertion
sequences. -/
theorem C9_topology_idempotent {P : Type} (exchange routingKey queue : String)
    (t : Topology) :
    Topology.applyOps (Topology.applyOps t (Events.assertExchange (P := P) exchange))
        (Events.assertExchange (P := P) exchange) =
      Topology.applyOps t (Events.assertExchange (P := P) exchange) ∧
    Topology.applyOps
        (Topology.applyOps t (Events.assertQueue (P := P) exchange routingKey queue))
        (Events.assertQueue (P := P) exchange routingKey queue) =
      Topology.applyOps t (Events.assertQueue (P := P) exchange routingKey queue) ∧
    Events.assertExchange (P := P) exchange = Encrypt.assertExchange exchange ∧
    Events.assertQueue (P := P) exchange routingKey queue =
      Encrypt.assertQueue exchange routingKey queue := by
  refine ⟨?_, ?_, rfl, rfl⟩ <;>
    cases t <;>
    simp [Topology.applyOps, Topology.applyOp, Events.assertExchange,
      Events.assertQueue, List.foldl, insertOnce_idem]

/-- C10: in assertData's failure branch the envelope's acknowledgment is
invoked strictly before the dead-letter publication is initiated (the
synchronous action list is exactly the ack followed by the throwError
initiation, which is not awaited), and the acknowledgment does not depend
on the publication succeeding: whether or not the asynchronous
publication's broker operations ever happen, the listener-channel ack of
the delivery comes first — in particular a failed error publication leaves
the message already acknowledged. -/
theorem C10_ack_before_dead_letter {T : Type}
    (attempt : T → Except Encrypt.JsError T)
    (m : Encrypt.ConsumeMessage T) (e : Encrypt.JsError)
    (h : attempt m.data = Except.error e) :
    (Encrypt.assertData attempt m).2 =
      [PipeAction.ackMessage, PipeAction.throwError e] ∧
    (∀ pubSucceeds : Bool,
      (Encrypt.runActions m pubSucceeds (Encrypt.assertData attempt m).2).head? =
        some (ChannelOp.ack m.deliveryTag)) ∧
    Encrypt.runActions m false (Encrypt.assertData attempt m).2 =
      [ChannelOp.ack m.deliveryTag] := by
  refine ⟨?_, ?_, ?_⟩
  · simp [Encrypt.assertData, h]
  · intro b
    cases b <;> simp [Encrypt.assertData, h, Encrypt.runActions]
  · simp [Encrypt.assertData, h, Encrypt.runActions]

/-- C10 witness: the ack-before-dead-letter behaviour evaluated at the
concrete failing envelope, with the asynchronous publication failing. -/
theorem C10_witness :
    (Encrypt.assertData sampleJsAttempt failingConsumeMessage).2 =
      [PipeAction.ackMessage, PipeAction.throwError sampleJsError] ∧
    (Encrypt.runActions failingConsumeMessage false
        (Encrypt.assertData sampleJsAttempt failingConsumeMessage).2).head? =
      some (ChannelOp.ack failingConsumeMessage.deliveryTag) ∧
    Encrypt.runActions failingConsumeMessage false
        (Encrypt.assertData sampleJsAttempt failingConsumeMessage).2 =
      [ChannelOp.ack failingConsumeMessage.deliveryTag] := by
  have h := C10_ack_before_dead_letter sampleJsAttempt failingConsumeMessage
    sampleJsError rfl
  exact ⟨h.1, h.2.1 false, h.2.2⟩

end IntLibs
